import Mathlib

/-!
Shallow embedding of the data-access layer of `studentmanagement.py`:
the batch directory (`get_all_batch_names`), the record store
(`create_batch` from `show_create_batch_page`, `append_student` from the
submit handler of `show_add_student_page`), and the in-memory
search/aggregation of `show_find_student_page`.

Worksheet cells are modelled as strings (each row is a `List String`);
a backing spreadsheet is a list of worksheets, and an unreachable
spreadsheet (failed open or failed `worksheets()` call in
`get_spreadsheet`) is modelled as `none`.  The wall clock of the Python
code (`datetime.now()`) is passed in explicitly: `timestamp` is the
formatted timestamp string and `year` is `datetime.now().year`.
-/

namespace StudentManagement

/-- One worksheet of a backing spreadsheet: its tab title and its rows
(row 0 is the header row, as returned by `get_all_values`). -/
structure Worksheet where
  title : String
  rows : List (List String)
deriving Repr, DecidableEq

/-- The two backing spreadsheets (the IELTS one and the Aptis one).
`none` models a spreadsheet that `get_spreadsheet` cannot open. -/
structure Store where
  ielts : Option (List Worksheet)
  aptis : Option (List Worksheet)
deriving Repr, DecidableEq

/-- A batch type, as chosen by the `selectbox` / `radio` widgets. -/
inductive BatchType
  | IELTS
  | Aptis
deriving Repr, DecidableEq

/-- The string the Python code uses for a batch type. -/
def typeName : BatchType → String
  | .IELTS => "IELTS"
  | .Aptis => "Aptis"

/-- Model of `get_spreadsheet(batch_type)`: selects the backing
spreadsheet by type; returns `none` on any access failure. -/
def get_spreadsheet (s : Store) (t : BatchType) : Option (List Worksheet) :=
  match t with
  | .IELTS => s.ielts
  | .Aptis => s.aptis

/-- Model of `set`-ting one backing spreadsheet's worksheet list (the
effect, on our state, of a successful `add_worksheet`/`append_row`). -/
def setSheet (s : Store) (t : BatchType) (wss : List Worksheet) : Store :=
  match t with
  | .IELTS => { s with ielts := some wss }
  | .Aptis => { s with aptis := some wss }

/-- A batch descriptor, as built by `get_all_batch_names`:
`{"name": ws.title, "type": batch_type, "worksheet": ws}`. -/
structure BatchDesc where
  name : String
  btype : BatchType
  worksheet : Worksheet
deriving Repr, DecidableEq

/-- The descriptors contributed by one backing spreadsheet: one per
worksheet, in native order; an unreachable spreadsheet contributes
nothing (the `if spreadsheet:` guard / `except: continue`). -/
def sheetsBatches (t : BatchType) : Option (List Worksheet) → List BatchDesc
  | none => []
  | some wss => wss.map (fun ws => ⟨ws.title, t, ws⟩)

/-- Model of `get_all_batch_names()`: iterates `["IELTS", "Aptis"]` in
that order, skipping any unreachable spreadsheet. -/
def get_all_batch_names (s : Store) : List BatchDesc :=
  sheetsBatches .IELTS s.ielts ++ sheetsBatches .Aptis s.aptis

/-- Python's `str.strip()`: drop leading and trailing whitespace.
(Defined character-wise so that it evaluates by kernel reduction.) -/
def strTrim (s : String) : String :=
  ⟨((s.data.dropWhile Char.isWhitespace).reverse.dropWhile Char.isWhitespace).reverse⟩

/-- Python's `str.lower()`, character-wise. -/
def strLower (s : String) : String :=
  ⟨s.data.map Char.toLower⟩

/-- A row, in `get_student_count`, counts as a student iff some cell is
non-blank after `strip()`. -/
def rowNonEmpty (row : List String) : Bool :=
  row.any (fun c => strTrim c != "")

/-- Model of `get_student_count(worksheet)`: the number of rows after
the header with at least one non-blank cell. -/
def get_student_count (ws : Worksheet) : Nat :=
  ((ws.rows.drop 1).filter rowNonEmpty).length

/-- The header row written by `show_create_batch_page`. -/
def headers : List String :=
  ["Timestamp", "Student ID", "Full Name", "Contact Number",
   "Email Address", "Batch", "Time", "Year", "Status", "Notes"]

/-- Failure modes of the create-batch submit handler. -/
inductive CreateError
  | EmptyName
  | DuplicateName
  | Unreachable
deriving Repr, DecidableEq

/-- Model of the submit branch of `show_create_batch_page` (lines
520-558): reject an empty name, reject a name already present in the
directory, otherwise add one worksheet holding just the header row to
the backing spreadsheet of the requested type.  `Unreachable` covers
the branch where `get_spreadsheet` returns `None` and nothing is
created. -/
def create_batch (s : Store) (batch_name : String) (batch_type : BatchType) :
    Except CreateError Store :=
  if batch_name = "" then .error .EmptyName
  else
    let existing_names := (get_all_batch_names s).map (·.name)
    if batch_name ∈ existing_names then .error .DuplicateName
    else
      match get_spreadsheet s batch_type with
      | none => .error .Unreachable
      | some wss => .ok (setSheet s batch_type (wss ++ [⟨batch_name, [headers]⟩]))

/-- The form fields of `show_add_student_page`. -/
structure StudentInput where
  student_name : String
  student_id : String
  contact_number : String
  email : String
  batch_name : String
  batch_type : BatchType
  additional_notes : String
deriving Repr, DecidableEq

/-- Failure modes of the add-student submit handler. -/
inductive AppendError
  | MissingFields
  | BatchNotFound
deriving Repr, DecidableEq

/-- The row `student_data` built by the add-student submit handler
(lines 706-718).  Note that the batch type lands under the `Time`
header and the time slot is never written. -/
def student_data (inp : StudentInput) (timestamp : String) (year : Nat) : List String :=
  [timestamp, inp.student_id, inp.student_name, inp.contact_number, inp.email,
   inp.batch_name, typeName inp.batch_type, toString year, "ACTIVE",
   if inp.additional_notes = "" then "No notes" else inp.additional_notes]

/-- Append one row to the first worksheet with the given title (tab
titles are unique within one spreadsheet, so at most one matches). -/
def appendToSheet (wss : List Worksheet) (title : String) (row : List String) :
    List Worksheet :=
  match wss with
  | [] => []
  | ws :: rest =>
    if ws.title = title then { ws with rows := ws.rows ++ [row] } :: rest
    else ws :: appendToSheet rest title row

/-- Model of the submit handler of `show_add_student_page` (lines
680-722): validate that the five required fields are non-empty, find
the first directory entry whose name matches the selected batch name
(the scan at lines 695-698 runs over the batches of BOTH spreadsheets,
not only those of the declared type), and append `student_data` to that
entry's worksheet.  The inner `none` case never fires: a directory
entry always comes from a reachable spreadsheet. -/
def append_student (s : Store) (inp : StudentInput) (timestamp : String) (year : Nat) :
    Except AppendError Store :=
  if inp.student_name = "" ∨ inp.student_id = "" ∨ inp.contact_number = "" ∨
     inp.email = "" ∨ inp.batch_name = "" then
    .error .MissingFields
  else
    match (get_all_batch_names s).find? (fun b => b.name == inp.batch_name) with
    | none => .error .BatchNotFound
    | some b =>
      match get_spreadsheet s b.btype with
      | none => .error .BatchNotFound
      | some wss =>
        .ok (setSheet s b.btype
              (appendToSheet wss inp.batch_name (student_data inp timestamp year)))

/-- A record, as produced by `worksheet.get_all_records()`: an ordered
association of header name to cell text. -/
abbrev Record := List (String × String)

/-- Pad a row with empty cells up to the header width (`get_all_values`
returns rectangular data). -/
def padTo (n : Nat) (r : List String) : List String :=
  r ++ List.replicate (n - r.length) ""

/-- Model of `worksheet.get_all_records()`: zip each data row with the
header row (row 0). -/
def get_all_records (ws : Worksheet) : List Record :=
  match ws.rows with
  | [] => []
  | header :: rest => rest.map (fun r => header.zip (padTo header.length r))

/-- Model of `row.get(k)` for the skip test at line 814: the cell text,
or `""` when the key is absent (both are falsy in Python). -/
def getField (row : Record) (k : String) : String :=
  (List.lookup k row).getD ""

/-- Model of `df[k].astype(str)` on one row: the cell text, or the
string `"nan"` when the column is missing for this row (a missing key
becomes `NaN`, and `astype(str)` renders `NaN` as `"nan"`). -/
def getColStr (row : Record) (k : String) : String :=
  (List.lookup k row).getD "nan"

/-- Model of Python dict assignment `row[k] = v`: overwrite in place
when the key exists, else append. -/
def setField (row : Record) (k v : String) : Record :=
  if (List.lookup k row).isSome then
    row.map (fun p => if p.1 = k then (k, v) else p)
  else row ++ [(k, v)]

/-- The records contributed by one batch to the search aggregation
(lines 807-820): every record of its worksheet except those whose
`Student ID` and `Full Name` are both empty, each annotated with
`Batch_Name` and `Batch_Type`. -/
def batchRecords (b : BatchDesc) : List Record :=
  ((get_all_records b.worksheet).filter
      (fun row => !(getField row "Student ID" == "" && getField row "Full Name" == ""))
    ).map (fun row => setField (setField row "Batch_Name" b.name) "Batch_Type" (typeName b.btype))

/-- Model of the `all_students` aggregation of `show_find_student_page`
(lines 804-822): records of every batch of both spreadsheets. -/
def all_students (s : Store) : List Record :=
  (get_all_batch_names s).flatMap batchRecords

/-- The advanced filters of `show_find_student_page`; `none` models the
`All Batches` / `All Types` / `All Years` selections. -/
structure Filters where
  batch_filter : Option String
  type_filter : Option BatchType
  year_filter : Option Nat
deriving Repr, DecidableEq

/-- No advanced filter selected. -/
def noFilter : Filters := ⟨none, none, none⟩

/-- Model of the filter block (lines 831-840): equality filters on
`Batch_Name`, `Batch_Type`, and (when the `Year` column exists in the
aggregated frame at all) on `str(Year)`. -/
def applyFilters (recs : List Record) (f : Filters) : List Record :=
  let r1 := match f.batch_filter with
    | none => recs
    | some bn => recs.filter (fun r => getField r "Batch_Name" == bn)
  let r2 := match f.type_filter with
    | none => r1
    | some t => r1.filter (fun r => getField r "Batch_Type" == typeName t)
  match f.year_filter with
  | none => r2
  | some y =>
    if recs.any (fun r => (List.lookup "Year" r).isSome) then
      r2.filter (fun r => getColStr r "Year" == toString y)
    else r2

/-- Whether `n` is a prefix of `h`, character by character. -/
def startsWithL : List Char → List Char → Bool
  | [], _ => true
  | _ :: _, [] => false
  | a :: as, b :: bs => a == b && startsWithL as bs

/-- Whether `n` occurs contiguously somewhere in `h`. -/
def occursIn (n : List Char) : List Char → Bool
  | [] => startsWithL n []
  | c :: cs => startsWithL n (c :: cs) || occursIn n cs

/-- Python's `needle in hay` / pandas `str.contains` on plain text,
after both sides are lowered: substring containment. -/
def strContains (hay needle : String) : Bool :=
  occursIn needle.toList hay.toList

/-- The `Search In` selectbox of `show_find_student_page`. -/
inductive SearchType
  | AllFields
  | NameOnly
  | IdOnly
  | EmailOnly
  | ContactOnly
deriving Repr, DecidableEq

/-- A token of the regular-expression fragment our embedding covers:
a literal character or the `.` wildcard. -/
inductive RegexTok
  | lit (c : Char)
  | anyChar
deriving Repr, DecidableEq

/-- Whether a character is one of Python's regex metacharacters
(`. ^ $ * + ? ( ) [ ] | \ ` and the two braces), by code point. -/
def isRegexMeta (c : Char) : Bool :=
  decide (c.toNat ∈ ([46, 94, 36, 42, 43, 63, 40, 41, 91, 93, 124, 92, 123, 125] : List Nat))

/-- Whether one regex token matches one character; `.` matches
anything except a newline. -/
def tokMatches : RegexTok → Char → Bool
  | .lit a, c => a == c
  | .anyChar, c => c != Char.ofNat 10

/-- Whether the token list matches a prefix of the text. -/
def matchHere : List RegexTok → List Char → Bool
  | [], _ => true
  | _ :: _, [] => false
  | t :: ts, c :: cs => tokMatches t c && matchHere ts cs

/-- Whether the token list matches at some position of the text. -/
def searchFrom (ts : List RegexTok) : List Char → Bool
  | [] => matchHere ts []
  | c :: cs => matchHere ts (c :: cs) || searchFrom ts cs

/-- Compile a pattern: `.` (code 46) becomes the wildcard, every other
character a literal. -/
def toTokens (pat : String) : List RegexTok :=
  pat.data.map (fun c => if c.toNat = 46 then RegexTok.anyChar else RegexTok.lit c)

/-- Model of Python's `re.search(pat, s)` (what pandas `str.contains`
runs with its default `regex=True`), restricted to the fragment of
patterns built from literal characters and the `.` wildcard — the only
regex syntax exercised by the theorems below.  Other regex syntax is
not modelled: such characters are treated as literals. -/
def regexSearch (pat s : String) : Bool :=
  searchFrom (toTokens pat) s.data

/-- Model of the search mask (lines 843-857): lower the query once,
then run `str.contains` — a regex search, `regex=True` being the
pandas default — of the lowered query against the named column (or,
for `All Fields`, against every column of the row). -/
def maskOf (mode : SearchType) (q : String) (r : Record) : Bool :=
  let search_lower := strLower q
  match mode with
  | .NameOnly => regexSearch search_lower (strLower (getColStr r "Full Name"))
  | .IdOnly => regexSearch search_lower (strLower (getColStr r "Student ID"))
  | .EmailOnly => regexSearch search_lower (strLower (getColStr r "Email Address"))
  | .ContactOnly => regexSearch search_lower (strLower (getColStr r "Contact Number"))
  | .AllFields => r.any (fun p => regexSearch search_lower (strLower p.2))

/-- Model of a search run of `show_find_student_page`: aggregate,
apply the advanced filters, then (for a non-empty query — `if
search_query:`) keep the rows matching the mask. -/
def search (s : Store) (q : String) (mode : SearchType) (f : Filters) : List Record :=
  let base := applyFilters (all_students s) f
  if q = "" then base else base.filter (maskOf mode q)

/-- Model of the `clean_data` pass of the batch-detail view
(`show_view_batches_page`, lines 1024-1028): keep a record iff its
`Student ID` or its `Full Name` is non-empty. -/
def clean_data (ws : Worksheet) : List Record :=
  (get_all_records ws).filter
    (fun row => !(getField row "Student ID" == "" && getField row "Full Name" == ""))

/-! ### Spec-side predicates (from the words of §4.3 / §8) -/

/-- Spec-side reading of the search contract: `hay` contains `q` as a
case-insensitive substring. -/
def SubstrCI (q hay : String) : Prop :=
  (strLower q).toList <:+: (strLower hay).toList

theorem startsWithL_iff {n h : List Char} : startsWithL n h = true ↔ n <+: h := by
  induction n generalizing h with
  | nil => simp [startsWithL]
  | cons a as ih =>
    cases h with
    | nil => simp [startsWithL]
    | cons b bs => simp [startsWithL, List.cons_prefix_cons, ih]

theorem occursIn_iff {n h : List Char} : occursIn n h = true ↔ n <:+: h := by
  induction h with
  | nil => simp [occursIn, startsWithL_iff, List.infix_nil, List.prefix_nil]
  | cons c cs ih =>
    rw [occursIn, Bool.or_eq_true, startsWithL_iff, ih, List.infix_cons_iff]

instance (q hay : String) : Decidable (SubstrCI q hay) :=
  decidable_of_iff (occursIn (strLower q).toList (strLower hay).toList = true)
    occursIn_iff

/-- Spec-side reading of which field(s) a search tests: some field in
`All Fields` mode, exactly the named field in a field-scoped mode. -/
def specFieldMatch (mode : SearchType) (q : String) (rec : Record) : Prop :=
  match mode with
  | .AllFields => ∃ p ∈ rec, SubstrCI q p.2
  | .NameOnly => SubstrCI q (getColStr rec "Full Name")
  | .IdOnly => SubstrCI q (getColStr rec "Student ID")
  | .EmailOnly => SubstrCI q (getColStr rec "Email Address")
  | .ContactOnly => SubstrCI q (getColStr rec "Contact Number")

instance (mode : SearchType) (q : String) (rec : Record) :
    Decidable (specFieldMatch mode q rec) := by
  cases mode <;> dsimp [specFieldMatch] <;> infer_instance

/-! ### Helper lemmas -/

/-- What the code's mask actually tests, field-selection included: a
regex search of the lowered query, not substring containment. -/
def reFieldMatch (mode : SearchType) (q : String) (rec : Record) : Prop :=
  match mode with
  | .AllFields => ∃ p ∈ rec, regexSearch (strLower q) (strLower p.2) = true
  | .NameOnly => regexSearch (strLower q) (strLower (getColStr rec "Full Name")) = true
  | .IdOnly => regexSearch (strLower q) (strLower (getColStr rec "Student ID")) = true
  | .EmailOnly => regexSearch (strLower q) (strLower (getColStr rec "Email Address")) = true
  | .ContactOnly => regexSearch (strLower q) (strLower (getColStr rec "Contact Number")) = true

theorem strContains_iff {hay q : String} :
    strContains hay q = true ↔ q.toList <:+: hay.toList :=
  occursIn_iff

theorem maskOf_iff {mode : SearchType} {q : String} {rec : Record} :
    maskOf mode q rec = true ↔ reFieldMatch mode q rec := by
  cases mode <;> simp [maskOf, reFieldMatch, List.any_eq_true]

theorem matchHere_lits {n h : List Char} :
    matchHere (n.map RegexTok.lit) h = startsWithL n h := by
  induction n generalizing h with
  | nil => rfl
  | cons a as ih =>
    cases h with
    | nil => rfl
    | cons b bs => simp [matchHere, startsWithL, tokMatches, ih]

theorem searchFrom_lits {n h : List Char} :
    searchFrom (n.map RegexTok.lit) h = occursIn n h := by
  induction h with
  | nil => simp [searchFrom, occursIn, matchHere_lits]
  | cons c cs ih => simp [searchFrom, occursIn, matchHere_lits, ih]

theorem toTokens_no_meta {pat : String}
    (h : ∀ c ∈ pat.data, isRegexMeta c = false) :
    toTokens pat = pat.data.map RegexTok.lit := by
  unfold toTokens
  refine List.map_congr_left (fun c hc => ?_)
  have hmeta := h c hc
  have hdot : ¬c.toNat = 46 := by
    intro hh
    rw [isRegexMeta, hh] at hmeta
    exact absurd hmeta (by decide)
  simp [hdot]

theorem regexSearch_no_meta {pat s : String}
    (h : ∀ c ∈ pat.data, isRegexMeta c = false) :
    regexSearch pat s = strContains s pat := by
  unfold regexSearch strContains
  rw [toTokens_no_meta h, searchFrom_lits]
  rfl

theorem isRegexMeta_toLower {c : Char} (h : isRegexMeta c = false) :
    isRegexMeta c.toLower = false := by
  unfold Char.toLower
  dsimp only
  split
  · next hr =>
    obtain ⟨h1, h2⟩ := hr
    obtain ⟨k, hk⟩ := Nat.exists_eq_add_of_le h1
    have hk25 : k ≤ 25 := by omega
    rw [hk]
    interval_cases k <;> decide
  · exact h

theorem strLower_no_meta {q : String}
    (h : ∀ c ∈ q.data, isRegexMeta c = false) :
    ∀ c ∈ (strLower q).data, isRegexMeta c = false := by
  intro c hc
  obtain ⟨a, ha, rfl⟩ := List.mem_map.mp hc
  exact isRegexMeta_toLower (h a ha)

theorem regexSearch_lower_iff_substr {q v : String}
    (h : ∀ c ∈ q.data, isRegexMeta c = false) :
    regexSearch (strLower q) (strLower v) = true ↔ SubstrCI q v := by
  rw [regexSearch_no_meta (strLower_no_meta h)]
  exact strContains_iff

theorem reFieldMatch_iff_spec {mode : SearchType} {q : String} {rec : Record}
    (h : ∀ c ∈ q.data, isRegexMeta c = false) :
    reFieldMatch mode q rec ↔ specFieldMatch mode q rec := by
  cases mode <;>
    simp [reFieldMatch, specFieldMatch, regexSearch_lower_iff_substr h]

theorem get_setSheet_self (s : Store) (t : BatchType) (wss : List Worksheet) :
    get_spreadsheet (setSheet s t wss) t = some wss := by
  cases t <;> rfl

theorem get_setSheet_other {t t' : BatchType} (s : Store) (wss : List Worksheet)
    (h : t ≠ t') : get_spreadsheet (setSheet s t wss) t' = get_spreadsheet s t' := by
  cases t <;> cases t' <;> first | rfl | exact absurd rfl h

theorem mem_sheetsBatches {b : BatchDesc} {t : BatchType} {o : Option (List Worksheet)}
    (h : b ∈ sheetsBatches t o) :
    ∃ wss, o = some wss ∧ b.worksheet ∈ wss ∧ b = ⟨b.worksheet.title, t, b.worksheet⟩ := by
  cases o with
  | none => simp [sheetsBatches] at h
  | some wss =>
    simp only [sheetsBatches, List.mem_map] at h
    obtain ⟨ws, hmem, hws⟩ := h
    exact ⟨wss, rfl, by rw [← hws]; exact ⟨hmem, rfl⟩⟩

theorem sheet_of_mem_batches {s : Store} {b : BatchDesc}
    (h : b ∈ get_all_batch_names s) :
    ∃ wss, get_spreadsheet s b.btype = some wss := by
  rcases List.mem_append.mp h with h' | h' <;>
    obtain ⟨wss, ho, -, hb⟩ := mem_sheetsBatches h' <;>
    exact ⟨wss, by rw [hb]; exact ho⟩

theorem find?_sheetsBatches {t : BatchType} {wss : List Worksheet} {b : BatchDesc}
    {nm : String}
    (h : (sheetsBatches t (some wss)).find? (fun x => x.name == nm) = some b) :
    b.btype = t ∧ b.name = b.worksheet.title ∧
      wss.find? (fun w => w.title == nm) = some b.worksheet := by
  simp only [sheetsBatches, List.find?_map, Option.map_eq_some'] at h
  obtain ⟨w, hw, hb⟩ := h
  have hfn : ((fun x : BatchDesc => x.name == nm) ∘
        fun ws : Worksheet => (⟨ws.title, t, ws⟩ : BatchDesc))
      = fun w : Worksheet => w.title == nm := rfl
  rw [hfn] at hw
  subst hb
  exact ⟨rfl, rfl, hw⟩

theorem find?_batches_decomp {s : Store} {nm : String} {b : BatchDesc}
    (h : (get_all_batch_names s).find? (fun x => x.name == nm) = some b) :
    ∃ wss, get_spreadsheet s b.btype = some wss ∧ b.name = b.worksheet.title ∧
      wss.find? (fun w => w.title == nm) = some b.worksheet := by
  unfold get_all_batch_names at h
  rw [List.find?_append, Option.or_eq_some] at h
  rcases h with h | ⟨-, h⟩
  · cases hI : s.ielts with
    | none => rw [hI] at h; simp [sheetsBatches] at h
    | some wss =>
      rw [hI] at h
      obtain ⟨ht, hn, hf⟩ := find?_sheetsBatches h
      exact ⟨wss, by rw [ht]; exact hI, hn, hf⟩
  · cases hA : s.aptis with
    | none => rw [hA] at h; simp [sheetsBatches] at h
    | some wss =>
      rw [hA] at h
      obtain ⟨ht, hn, hf⟩ := find?_sheetsBatches h
      exact ⟨wss, by rw [ht]; exact hA, hn, hf⟩

theorem appendToSheet_of_find? {wss : List Worksheet} {nm : String}
    {w : Worksheet} (row : List String)
    (h : wss.find? (fun x => x.title == nm) = some w) :
    ∃ l1 l2, wss = l1 ++ w :: l2 ∧
      appendToSheet wss nm row = l1 ++ { w with rows := w.rows ++ [row] } :: l2 := by
  induction wss with
  | nil => simp at h
  | cons x rest ih =>
    by_cases hx : x.title = nm
    · rw [List.find?_cons_of_pos _ (by simpa using hx)] at h
      obtain rfl : x = w := by injection h
      exact ⟨[], rest, rfl, by simp [appendToSheet, hx]⟩
    · rw [List.find?_cons_of_neg _ (by simpa using hx)] at h
      obtain ⟨l1, l2, heq, happ⟩ := ih h
      exact ⟨x :: l1, l2, by rw [heq]; rfl, by simp [appendToSheet, hx, happ]⟩

theorem padTo_eq_self {n : Nat} {r : List String} (h : r.length = n) :
    padTo n r = r := by
  simp [padTo, h]

theorem applyFilters_noFilter (recs : List Record) :
    applyFilters recs noFilter = recs := rfl

theorem mem_of_mem_applyFilters {recs : List Record} {f : Filters} {rec : Record}
    (h : rec ∈ applyFilters recs f) : rec ∈ recs := by
  rcases f with ⟨bf, tf, yf⟩
  unfold applyFilters at h
  cases bf <;> cases tf <;> cases yf <;> dsimp only at h
  all_goals try split at h
  all_goals solve_by_elim [List.mem_of_mem_filter]

theorem lookup_map_overwrite {rest : Record} {k k2 v : String} (h : k ≠ k2) :
    List.lookup k (rest.map (fun p => if p.1 = k2 then (k2, v) else p))
      = List.lookup k rest := by
  induction rest with
  | nil => rfl
  | cons p rest ih =>
    obtain ⟨a, b⟩ := p
    by_cases hp : a = k2
    · subst hp
      simp [List.lookup_cons, beq_false_of_ne h, ih]
    · simp only [List.map_cons, if_neg hp, List.lookup_cons]
      cases k == a <;> simp [ih]

theorem lookup_setField_ne {r : Record} {k k2 v : String} (h : k ≠ k2) :
    List.lookup k (setField r k2 v) = List.lookup k r := by
  unfold setField
  split
  · exact lookup_map_overwrite h
  · rw [List.lookup_append]
    have h1 : List.lookup k [(k2, v)] = none := by
      simp [List.lookup_cons, beq_false_of_ne h, List.lookup]
    rw [h1, Option.or_none]

theorem setField_append_of_lookup_none {r : Record} {k v : String}
    (h : List.lookup k r = none) : setField r k v = r ++ [(k, v)] := by
  simp [setField, h]

theorem mem_batches_setSheet {s : Store} {t : BatchType} {wss : List Worksheet}
    {ws : Worksheet} (hws : ws ∈ wss) :
    (⟨ws.title, t, ws⟩ : BatchDesc) ∈ get_all_batch_names (setSheet s t wss) := by
  cases t <;>
    simp only [get_all_batch_names, setSheet, sheetsBatches, List.mem_append,
      List.mem_map]
  · exact Or.inl ⟨ws, hws, rfl⟩
  · exact Or.inr ⟨ws, hws, rfl⟩

theorem mem_get_all_records_append {ws : Worksheet} {row : List String}
    (hhead : ws.rows.head? = some headers) (hlen : row.length = 10) :
    headers.zip row ∈ get_all_records { ws with rows := ws.rows ++ [row] } := by
  obtain ⟨rest, hrest⟩ : ∃ rest, ws.rows = headers :: rest := by
    cases h : ws.rows with
    | nil => rw [h] at hhead; exact absurd hhead (by simp)
    | cons a l =>
      rw [h] at hhead
      exact ⟨l, by injection hhead with h1; rw [h1]⟩
  have hpad : padTo headers.length row = row := padTo_eq_self (by rw [hlen]; rfl)
  simp only [get_all_records, hrest, List.cons_append, List.mem_map]
  exact ⟨row, by simp, by rw [hpad]⟩

theorem append_student_of_find?_none {s : Store} {inp : StudentInput}
    {ts : String} {yr : Nat}
    (hname : inp.student_name ≠ "") (hid : inp.student_id ≠ "")
    (hc : inp.contact_number ≠ "") (he : inp.email ≠ "") (hb : inp.batch_name ≠ "")
    (hfind : (get_all_batch_names s).find? (fun x => x.name == inp.batch_name) = none) :
    append_student s inp ts yr = Except.error AppendError.BatchNotFound := by
  simp [append_student, hname, hid, hc, he, hb, hfind]

theorem append_student_of_find?_some {s : Store} {inp : StudentInput}
    {ts : String} {yr : Nat} {b : BatchDesc}
    (hname : inp.student_name ≠ "") (hid : inp.student_id ≠ "")
    (hc : inp.contact_number ≠ "") (he : inp.email ≠ "") (hb : inp.batch_name ≠ "")
    (hfind : (get_all_batch_names s).find? (fun x => x.name == inp.batch_name) = some b) :
    ∃ wss, get_spreadsheet s b.btype = some wss ∧
      append_student s inp ts yr
        = Except.ok (setSheet s b.btype
            (appendToSheet wss inp.batch_name (student_data inp ts yr))) := by
  obtain ⟨wss, hsheet, -, -⟩ := find?_batches_decomp hfind
  exact ⟨wss, hsheet,
    by simp [append_student, hname, hid, hc, he, hb, hfind, hsheet]⟩

theorem append_student_ok_inv {s : Store} {inp : StudentInput} {ts : String}
    {yr : Nat} {s' : Store} (h : append_student s inp ts yr = Except.ok s') :
    ∃ t wss, get_spreadsheet s t = some wss ∧
      s' = setSheet s t (appendToSheet wss inp.batch_name (student_data inp ts yr)) := by
  unfold append_student at h
  split at h
  · exact Except.noConfusion h
  · split at h
    next => exact Except.noConfusion h
    next b heq =>
      split at h
      next => exact Except.noConfusion h
      next wss hsheet =>
        exact ⟨b.btype, wss, hsheet, (Except.ok.inj h).symm⟩

/-! ### Claim theorems -/

/-- C1: for every non-empty batch name already present in the directory
(the union of worksheet titles of both backing spreadsheets),
`create_batch` with that name fails with `DuplicateName`; no store is
produced, so no worksheet is created in either spreadsheet. -/
theorem create_batch_duplicate_fails (s : Store) (name : String) (t : BatchType)
    (hne : name ≠ "")
    (hdup : name ∈ (get_all_batch_names s).map (·.name)) :
    create_batch s name t = Except.error CreateError.DuplicateName := by
  simp [create_batch, hne, hdup]

/-- Witness for C1: creating a second batch named `B1`. -/
theorem create_batch_duplicate_fails_witness :
    create_batch ⟨some [⟨"B1", [headers]⟩], some []⟩ "B1" BatchType.Aptis
      = Except.error CreateError.DuplicateName :=
  create_batch_duplicate_fails _ _ _ (by decide)
    (by simp [get_all_batch_names, sheetsBatches])

/-- C2: for every non-empty batch name not present in the directory and
every type, `create_batch` succeeds, adds exactly one worksheet holding
just the header row to the backing spreadsheet of that type, and the
name then appears in the directory returned by `get_all_batch_names`. -/
theorem create_batch_new_succeeds (s : Store) (name : String) (t : BatchType)
    (wss : List Worksheet) (hne : name ≠ "")
    (hnot : name ∉ (get_all_batch_names s).map (·.name))
    (hsheet : get_spreadsheet s t = some wss) :
    create_batch s name t
        = Except.ok (setSheet s t (wss ++ [⟨name, [headers]⟩])) ∧
      name ∈ (get_all_batch_names
          (setSheet s t (wss ++ [⟨name, [headers]⟩]))).map (·.name) := by
  refine ⟨by simp [create_batch, hne, hnot, hsheet], ?_⟩
  cases t <;> simp [get_all_batch_names, setSheet, sheetsBatches]

/-- Witness for C2: creating `B1` in an empty IELTS spreadsheet. -/
theorem create_batch_new_succeeds_witness :
    create_batch ⟨some [], some []⟩ "B1" BatchType.IELTS
        = Except.ok ⟨some [⟨"B1", [headers]⟩], some []⟩ ∧
      "B1" ∈ (get_all_batch_names ⟨some [⟨"B1", [headers]⟩], some []⟩).map (·.name) :=
  create_batch_new_succeeds ⟨some [], some []⟩ "B1" .IELTS [] (by decide)
    (by simp [get_all_batch_names, sheetsBatches]) rfl

/-- C3: with all required form fields filled in, `append_student` with
a batch name matching no directory entry (no worksheet of either
reachable spreadsheet carries it) fails with `BatchNotFound`; no store
is produced, so no row is appended anywhere. -/
theorem append_student_absent_fails (s : Store) (inp : StudentInput)
    (ts : String) (yr : Nat)
    (hname : inp.student_name ≠ "") (hid : inp.student_id ≠ "")
    (hc : inp.contact_number ≠ "") (he : inp.email ≠ "")
    (hb : inp.batch_name ≠ "")
    (habs : ∀ b ∈ get_all_batch_names s, b.name ≠ inp.batch_name) :
    append_student s inp ts yr = Except.error AppendError.BatchNotFound := by
  have hfind : (get_all_batch_names s).find? (fun b => b.name == inp.batch_name)
      = none :=
    List.find?_eq_none.mpr (fun b hbmem => by simp [habs b hbmem])
  simp [append_student, hname, hid, hc, he, hb, hfind]

/-- Witness for C3: appending to the nonexistent batch `X`. -/
theorem append_student_absent_fails_witness :
    append_student ⟨some [⟨"B1", [headers]⟩], none⟩
      ⟨"Ann", "S1", "017", "a@b.c", "X", BatchType.IELTS, ""⟩ "t" 2026
      = Except.error AppendError.BatchNotFound :=
  append_student_absent_fails _ _ _ _ (by decide) (by decide) (by decide)
    (by decide) (by decide) (by decide)

/-- C8: `get_all_batch_names` fails soft: when one backing spreadsheet
is unreachable, the call still returns exactly the batch descriptors of
the other spreadsheet. -/
theorem list_batches_failsoft (s : Store) :
    (s.ielts = none → get_all_batch_names s = sheetsBatches BatchType.Aptis s.aptis) ∧
    (s.aptis = none → get_all_batch_names s = sheetsBatches BatchType.IELTS s.ielts) := by
  constructor <;> intro h <;> simp [get_all_batch_names, h, sheetsBatches]

/-- Witness for C8: the IELTS spreadsheet unreachable, one Aptis batch. -/
theorem list_batches_failsoft_witness :
    get_all_batch_names ⟨none, some [⟨"B1", [headers]⟩]⟩
      = sheetsBatches BatchType.Aptis (some [⟨"B1", [headers]⟩]) :=
  (list_batches_failsoft ⟨none, some [⟨"B1", [headers]⟩]⟩).1 rfl

/-- C4 counterexample: the batch `B1` exists only in the Aptis
spreadsheet (the IELTS spreadsheet is reachable and empty), yet a
record declared `IELTS` does not fail with `BatchNotFound` — the row is
appended to the Aptis worksheet. -/
theorem append_student_other_type_counterexample :
    get_spreadsheet ⟨some [], some [⟨"B1", [headers]⟩]⟩ BatchType.IELTS = some [] ∧
    append_student ⟨some [], some [⟨"B1", [headers]⟩]⟩
        ⟨"Ann", "S1", "017", "a@b.c", "B1", BatchType.IELTS, ""⟩ "t" 2026
      = Except.ok ⟨some [], some [⟨"B1",
          [headers,
           ["t", "S1", "Ann", "017", "a@b.c", "B1", "IELTS", "2026", "ACTIVE",
            "No notes"]]⟩]⟩ :=
  ⟨rfl, rfl⟩

/-- C4 amended: with all required fields filled in, `append_student`
fails with `BatchNotFound` exactly when the batch name matches no
worksheet of either reachable spreadsheet; when the first matching
directory entry lives in a spreadsheet of the other type, the row is
appended to that other-type worksheet instead of failing. -/
theorem append_student_scans_both_sheets (s : Store) (inp : StudentInput)
    (ts : String) (yr : Nat)
    (hname : inp.student_name ≠ "") (hid : inp.student_id ≠ "")
    (hc : inp.contact_number ≠ "") (he : inp.email ≠ "")
    (hb : inp.batch_name ≠ "") :
    (append_student s inp ts yr = Except.error AppendError.BatchNotFound ↔
      ∀ b ∈ get_all_batch_names s, b.name ≠ inp.batch_name) ∧
    (∀ b, (get_all_batch_names s).find? (fun x => x.name == inp.batch_name) = some b →
      ∃ wss, get_spreadsheet s b.btype = some wss ∧
        append_student s inp ts yr
          = Except.ok (setSheet s b.btype
              (appendToSheet wss inp.batch_name (student_data inp ts yr)))) := by
  constructor
  · constructor
    · intro herr
      cases hfind : (get_all_batch_names s).find? (fun x => x.name == inp.batch_name) with
      | none =>
        intro b hbmem
        have := List.find?_eq_none.mp hfind b hbmem
        simpa using this
      | some b =>
        obtain ⟨wss, -, hok⟩ :=
          append_student_of_find?_some hname hid hc he hb hfind
        rw [hok] at herr
        exact Except.noConfusion herr
    · intro habs
      exact append_student_of_find?_none hname hid hc he hb
        (List.find?_eq_none.mpr (fun b hbmem => by simp [habs b hbmem]))
  · intro b hfind
    exact append_student_of_find?_some hname hid hc he hb hfind

/-- Witness for the amended C4: the counterexample input, where the
first directory entry named `B1` is the Aptis worksheet. -/
theorem append_student_scans_both_sheets_witness :
    ∃ wss, get_spreadsheet ⟨some [], some [⟨"B1", [headers]⟩]⟩ BatchType.Aptis
        = some wss ∧
      append_student ⟨some [], some [⟨"B1", [headers]⟩]⟩
          ⟨"Ann", "S1", "017", "a@b.c", "B1", BatchType.IELTS, ""⟩ "t" 2026
        = Except.ok (setSheet ⟨some [], some [⟨"B1", [headers]⟩]⟩ BatchType.Aptis
            (appendToSheet wss "B1"
              (student_data ⟨"Ann", "S1", "017", "a@b.c", "B1", BatchType.IELTS, ""⟩
                "t" 2026))) :=
  (append_student_scans_both_sheets ⟨some [], some [⟨"B1", [headers]⟩]⟩
      ⟨"Ann", "S1", "017", "a@b.c", "B1", BatchType.IELTS, ""⟩ "t" 2026
      (by decide) (by decide) (by decide) (by decide) (by decide)).2
    ⟨"B1", BatchType.Aptis, ⟨"B1", [headers]⟩⟩ rfl

/-- C9: the row a successful `append_student` writes is
`student_data`: exactly 10 fields, field 8 (under the `Status` header)
is the constant `"ACTIVE"`, field 7 (under `Year`) is the current year
at append time, and field 9 (under `Notes`) is never empty — the
literal `"No notes"` replaces empty notes. -/
theorem student_data_invariants (s : Store) (inp : StudentInput)
    (ts : String) (yr : Nat) :
    (student_data inp ts yr).length = 10 ∧
    (student_data inp ts yr).getD 8 "" = "ACTIVE" ∧
    (student_data inp ts yr).getD 7 "" = toString yr ∧
    (student_data inp ts yr).getD 9 "" ≠ "" ∧
    (inp.additional_notes = "" → (student_data inp ts yr).getD 9 "" = "No notes") ∧
    (∀ s', append_student s inp ts yr = Except.ok s' →
      ∃ t wss, get_spreadsheet s t = some wss ∧
        s' = setSheet s t
          (appendToSheet wss inp.batch_name (student_data inp ts yr))) := by
  refine ⟨rfl, rfl, rfl, ?_, ?_, fun s' h => append_student_ok_inv h⟩
  · show (if inp.additional_notes = "" then "No notes" else inp.additional_notes) ≠ ""
    split
    · decide
    · next hnotes => exact hnotes
  · intro h
    show (if inp.additional_notes = "" then "No notes" else inp.additional_notes)
      = "No notes"
    rw [if_pos h]

/-- Witness for C9: a successful append with empty notes. -/
theorem student_data_invariants_witness :
    (student_data ⟨"Ann", "S1", "017", "a@b.c", "B1", BatchType.Aptis, ""⟩ "t" 2026).getD
        9 "" = "No notes" ∧
    ∃ t wss, get_spreadsheet ⟨some [], some [⟨"B1", [headers]⟩]⟩ t = some wss ∧
      (⟨some [], some [⟨"B1",
          [headers,
           ["t", "S1", "Ann", "017", "a@b.c", "B1", "Aptis", "2026", "ACTIVE",
            "No notes"]]⟩]⟩ : Store)
        = setSheet ⟨some [], some [⟨"B1", [headers]⟩]⟩ t
            (appendToSheet wss "B1"
              (student_data ⟨"Ann", "S1", "017", "a@b.c", "B1", BatchType.Aptis, ""⟩
                "t" 2026)) :=
  ⟨(student_data_invariants ⟨some [], some [⟨"B1", [headers]⟩]⟩
      ⟨"Ann", "S1", "017", "a@b.c", "B1", BatchType.Aptis, ""⟩ "t" 2026).2.2.2.2.1 rfl,
   (student_data_invariants ⟨some [], some [⟨"B1", [headers]⟩]⟩
      ⟨"Ann", "S1", "017", "a@b.c", "B1", BatchType.Aptis, ""⟩ "t" 2026).2.2.2.2.2 _ rfl⟩

/-- C6 counterexample: pandas `str.contains` treats the query as a
regular expression, so the query `a.c` — which occurs in no field of
the one aggregated record as a substring — still matches the student
named `axc`, and the search is not empty. -/
theorem search_nomatch_counterexample :
    (∀ rec ∈ all_students ⟨some [], some [⟨"B1",
        [headers,
         ["t", "S1", "axc", "017", "x@yz", "B1", "Aptis", "2026", "ACTIVE",
          "No notes"]]⟩]⟩, ∀ p ∈ rec, ¬ SubstrCI "a.c" p.2) ∧
    search ⟨some [], some [⟨"B1",
        [headers,
         ["t", "S1", "axc", "017", "x@yz", "B1", "Aptis", "2026", "ACTIVE",
          "No notes"]]⟩]⟩ "a.c" SearchType.AllFields noFilter ≠ [] := by
  decide

/-- C6 amended: a search with an empty query and no advanced filters
returns the full aggregated record set unchanged; a non-empty query
that matches no field of any aggregated record as a case-insensitive
regular expression — in particular, a query free of regex
metacharacters that occurs in no field as a substring — returns the
empty list. -/
theorem search_empty_and_nomatch (s : Store) (q : String) (mode : SearchType) :
    search s "" mode noFilter = all_students s ∧
    (q ≠ "" → (∀ rec ∈ all_students s, ∀ p ∈ rec,
        regexSearch (strLower q) (strLower p.2) = false) →
      search s q SearchType.AllFields noFilter = []) ∧
    (q ≠ "" → (∀ c ∈ q.data, isRegexMeta c = false) →
      (∀ rec ∈ all_students s, ∀ p ∈ rec, ¬ SubstrCI q p.2) →
      search s q SearchType.AllFields noFilter = []) := by
  have main : ∀ hq : q ≠ "", (∀ rec ∈ all_students s, ∀ p ∈ rec,
      regexSearch (strLower q) (strLower p.2) = false) →
      search s q SearchType.AllFields noFilter = [] := by
    intro hq hnone
    simp only [search, applyFilters_noFilter, if_neg hq]
    refine List.filter_eq_nil_iff.mpr (fun rec hrec hmask => ?_)
    obtain ⟨p, hp, hre⟩ := maskOf_iff.mp hmask
    rw [hnone rec hrec p hp] at hre
    exact Bool.false_ne_true hre
  refine ⟨rfl, main, fun hq hmeta hnone => main hq (fun rec hrec p hp => ?_)⟩
  rw [Bool.eq_false_iff]
  intro hre
  exact hnone rec hrec p hp ((regexSearch_lower_iff_substr hmeta).mp hre)

/-- Witness for the amended C6: a one-student store, the empty query,
and the metacharacter-free query `zzz`, which occurs in no field. -/
theorem search_empty_and_nomatch_witness :
    search ⟨some [], some [⟨"B1",
        [headers,
         ["t", "S1", "Ann", "017", "a@b.c", "B1", "Aptis", "2026", "ACTIVE",
          "No notes"]]⟩]⟩ "" SearchType.AllFields noFilter
      = all_students ⟨some [], some [⟨"B1",
        [headers,
         ["t", "S1", "Ann", "017", "a@b.c", "B1", "Aptis", "2026", "ACTIVE",
          "No notes"]]⟩]⟩ ∧
    search ⟨some [], some [⟨"B1",
        [headers,
         ["t", "S1", "Ann", "017", "a@b.c", "B1", "Aptis", "2026", "ACTIVE",
          "No notes"]]⟩]⟩ "zzz" SearchType.AllFields noFilter = [] :=
  ⟨(search_empty_and_nomatch _ "zzz" SearchType.AllFields).1,
   (search_empty_and_nomatch _ "zzz" SearchType.AllFields).2.2 (by decide)
     (by decide) (by decide)⟩

/-- C7 counterexample: the record of the student named `axc` is
retained by a search for `a.c` even though no field contains `a.c` as
a case-insensitive substring — `str.contains` runs the query as a
regular expression, where `.` matches any character. -/
theorem search_retained_counterexample :
    [("Timestamp", "t"), ("Student ID", "S1"), ("Full Name", "axc"),
     ("Contact Number", "017"), ("Email Address", "x@yz"), ("Batch", "B1"),
     ("Time", "Aptis"), ("Year", "2026"), ("Status", "ACTIVE"),
     ("Notes", "No notes"), ("Batch_Name", "B1"), ("Batch_Type", "Aptis")]
      ∈ search ⟨some [], some [⟨"B1",
          [headers,
           ["t", "S1", "axc", "017", "x@yz", "B1", "Aptis", "2026", "ACTIVE",
            "No notes"]]⟩]⟩ "a.c" SearchType.AllFields noFilter ∧
    ¬ specFieldMatch SearchType.AllFields "a.c"
        [("Timestamp", "t"), ("Student ID", "S1"), ("Full Name", "axc"),
         ("Contact Number", "017"), ("Email Address", "x@yz"), ("Batch", "B1"),
         ("Time", "Aptis"), ("Year", "2026"), ("Status", "ACTIVE"),
         ("Notes", "No notes"), ("Batch_Name", "B1"), ("Batch_Type", "Aptis")] := by
  decide

/-- C7 amended: for a non-empty query, a record of the filtered
candidate set is retained exactly when the tested field — some field in
`All Fields` mode, only the named field in a field-scoped mode,
converted to text — matches the query as a case-insensitive regular
expression; for queries free of regex metacharacters this coincides
with case-insensitive substring containment. -/
theorem search_retained_iff (s : Store) (q : String) (mode : SearchType)
    (f : Filters) (rec : Record) (hq : q ≠ "")
    (hrec : rec ∈ applyFilters (all_students s) f) :
    (rec ∈ search s q mode f ↔ reFieldMatch mode q rec) ∧
    ((∀ c ∈ q.data, isRegexMeta c = false) →
      (rec ∈ search s q mode f ↔ specFieldMatch mode q rec)) := by
  have base : rec ∈ search s q mode f ↔ reFieldMatch mode q rec := by
    simp only [search, if_neg hq]
    rw [List.mem_filter]
    exact ⟨fun h => maskOf_iff.mp h.2, fun h => ⟨hrec, maskOf_iff.mpr h⟩⟩
  exact ⟨base, fun hmeta => base.trans (reFieldMatch_iff_spec hmeta)⟩

/-- Witness for the amended C7: the metacharacter-free query `ann`
against the one aggregated record, in `All Fields` mode. -/
theorem search_retained_iff_witness :
    ([("Timestamp", "t"), ("Student ID", "S1"), ("Full Name", "Ann"),
      ("Contact Number", "017"), ("Email Address", "a@b.c"), ("Batch", "B1"),
      ("Time", "Aptis"), ("Year", "2026"), ("Status", "ACTIVE"),
      ("Notes", "No notes"), ("Batch_Name", "B1"), ("Batch_Type", "Aptis")]
        ∈ search ⟨some [], some [⟨"B1",
            [headers,
             ["t", "S1", "Ann", "017", "a@b.c", "B1", "Aptis", "2026", "ACTIVE",
              "No notes"]]⟩]⟩ "ann" SearchType.AllFields noFilter)
      ↔ specFieldMatch SearchType.AllFields "ann"
          [("Timestamp", "t"), ("Student ID", "S1"), ("Full Name", "Ann"),
           ("Contact Number", "017"), ("Email Address", "a@b.c"), ("Batch", "B1"),
           ("Time", "Aptis"), ("Year", "2026"), ("Status", "ACTIVE"),
           ("Notes", "No notes"), ("Batch_Name", "B1"), ("Batch_Type", "Aptis")] :=
  (search_retained_iff _ "ann" SearchType.AllFields noFilter _ (by decide)
    (by decide)).2 (by decide)

theorem mem_all_students_of_mem_search {s : Store} {q : String} {mode : SearchType}
    {f : Filters} {rec : Record} (h : rec ∈ search s q mode f) :
    rec ∈ all_students s := by
  unfold search at h
  split at h
  · exact mem_of_mem_applyFilters h
  · exact mem_of_mem_applyFilters (List.mem_of_mem_filter h)

theorem mem_all_students_fields {s : Store} {rec : Record}
    (h : rec ∈ all_students s) :
    ¬(getField rec "Student ID" = "" ∧ getField rec "Full Name" = "") := by
  obtain ⟨d, -, hrec⟩ := List.mem_flatMap.mp h
  unfold batchRecords at hrec
  obtain ⟨row0, hrow0, rfl⟩ := List.mem_map.mp hrec
  have hpred := (List.mem_filter.mp hrow0).2
  simp only [Bool.not_eq_eq_eq_not, Bool.not_true, Bool.and_eq_false_iff,
    beq_eq_false_iff_ne] at hpred
  rintro ⟨h1, h2⟩
  rw [getField, lookup_setField_ne (show "Student ID" ≠ "Batch_Type" by decide),
    lookup_setField_ne (show "Student ID" ≠ "Batch_Name" by decide)] at h1
  rw [getField, lookup_setField_ne (show "Full Name" ≠ "Batch_Type" by decide),
    lookup_setField_ne (show "Full Name" ≠ "Batch_Name" by decide)] at h2
  rcases hpred with hp | hp
  · exact hp h1
  · exact hp h2

/-- C5: a record successfully appended by `append_student` comes back
verbatim from the next empty-query search: the retrieved record pairs
each header with exactly the field value supplied at append time
(timestamp, id, name, contact, email, batch name, declared type, year,
status, notes), plus the `Batch_Name`/`Batch_Type` annotations. -/
theorem append_search_roundtrip (s : Store) (inp : StudentInput) (ts : String)
    (yr : Nat) (b : BatchDesc)
    (hname : inp.student_name ≠ "") (hid : inp.student_id ≠ "")
    (hc : inp.contact_number ≠ "") (he : inp.email ≠ "") (hb : inp.batch_name ≠ "")
    (hfind : (get_all_batch_names s).find? (fun x => x.name == inp.batch_name) = some b)
    (hhead : b.worksheet.rows.head? = some headers) :
    ∃ s', append_student s inp ts yr = Except.ok s' ∧
      (headers.zip (student_data inp ts yr)
          ++ [("Batch_Name", inp.batch_name), ("Batch_Type", typeName b.btype)])
        ∈ search s' "" SearchType.AllFields noFilter := by
  obtain ⟨wss, hsheet, hnm, hfw⟩ := find?_batches_decomp hfind
  have hok : append_student s inp ts yr
      = Except.ok (setSheet s b.btype
          (appendToSheet wss inp.batch_name (student_data inp ts yr))) := by
    simp [append_student, hname, hid, hc, he, hb, hfind, hsheet]
  refine ⟨_, hok, ?_⟩
  have hbname : b.name = inp.batch_name := by
    have := List.find?_some hfind
    simpa using this
  have htitle : b.worksheet.title = inp.batch_name := hnm ▸ hbname
  obtain ⟨l1, l2, -, happ⟩ :=
    appendToSheet_of_find? (student_data inp ts yr) hfw
  have hmem : ({ b.worksheet with
        rows := b.worksheet.rows ++ [student_data inp ts yr] } : Worksheet)
      ∈ appendToSheet wss inp.batch_name (student_data inp ts yr) := by
    rw [happ]; simp
  show _ ∈ all_students (setSheet s b.btype
      (appendToSheet wss inp.batch_name (student_data inp ts yr)))
  apply List.mem_flatMap.mpr
  refine ⟨⟨b.worksheet.title, b.btype,
    { b.worksheet with rows := b.worksheet.rows ++ [student_data inp ts yr] }⟩,
    mem_batches_setSheet hmem, ?_⟩
  unfold batchRecords
  apply List.mem_map.mpr
  refine ⟨headers.zip (student_data inp ts yr), ?_, ?_⟩
  · apply List.mem_filter.mpr
    refine ⟨mem_get_all_records_append hhead rfl, ?_⟩
    have hgf : getField (headers.zip (student_data inp ts yr)) "Student ID"
        = inp.student_id := rfl
    simp [hgf, beq_false_of_ne hid]
  · have hl1 : List.lookup "Batch_Name" (headers.zip (student_data inp ts yr))
        = none := rfl
    have hl2 : List.lookup "Batch_Type"
        (headers.zip (student_data inp ts yr) ++ [("Batch_Name", b.worksheet.title)])
        = none := by
      rw [List.lookup_append]
      rfl
    rw [setField_append_of_lookup_none hl1, setField_append_of_lookup_none hl2,
      htitle, List.append_assoc]
    rfl

/-- Witness for C5: appending `Ann` to the Aptis batch `B1` and
finding her record in the next empty-query search. -/
theorem append_search_roundtrip_witness :
    ∃ s', append_student ⟨some [], some [⟨"B1", [headers]⟩]⟩
        ⟨"Ann", "S1", "017", "a@b.c", "B1", BatchType.Aptis, ""⟩ "t" 2026
        = Except.ok s' ∧
      (headers.zip (student_data ⟨"Ann", "S1", "017", "a@b.c", "B1",
            BatchType.Aptis, ""⟩ "t" 2026)
          ++ [("Batch_Name", "B1"), ("Batch_Type", typeName BatchType.Aptis)])
        ∈ search s' "" SearchType.AllFields noFilter :=
  append_search_roundtrip ⟨some [], some [⟨"B1", [headers]⟩]⟩
    ⟨"Ann", "S1", "017", "a@b.c", "B1", BatchType.Aptis, ""⟩ "t" 2026
    ⟨"B1", BatchType.Aptis, ⟨"B1", [headers]⟩⟩
    (by decide) (by decide) (by decide) (by decide) (by decide) rfl rfl

/-- C10: the aggregation behind search (and the batch-detail
`clean_data` pass) drops every record whose `Student ID` and
`Full Name` are both empty, so no search result — even for an empty
query — has both empty; `get_student_count`, by contrast, counts any
data row with some non-blank cell. -/
theorem blank_rows_dropped_but_counted (s : Store) (q : String)
    (mode : SearchType) (f : Filters) (ws : Worksheet) (rec : Record)
    (r : List String) :
    (rec ∈ search s q mode f →
      ¬(getField rec "Student ID" = "" ∧ getField rec "Full Name" = "")) ∧
    (rec ∈ clean_data ws →
      ¬(getField rec "Student ID" = "" ∧ getField rec "Full Name" = "")) ∧
    (r ∈ ws.rows.drop 1 → rowNonEmpty r = true → 0 < get_student_count ws) := by
  refine ⟨fun h => mem_all_students_fields (mem_all_students_of_mem_search h),
    fun h => ?_, fun h1 h2 => ?_⟩
  · have hpred := (List.mem_filter.mp h).2
    simp only [Bool.not_eq_eq_eq_not, Bool.not_true, Bool.and_eq_false_iff,
      beq_eq_false_iff_ne] at hpred
    rintro ⟨ha, hb2⟩
    rcases hpred with hp | hp
    · exact hp ha
    · exact hp hb2
  · exact List.length_pos_of_mem (List.mem_filter.mpr ⟨h1, h2⟩)

/-- Witness for C10: a worksheet holding one blank-identity row (only
its notes cell is non-blank) and one real student; the search returns
only the real record, yet the count includes the blank-identity row. -/
theorem blank_rows_dropped_but_counted_witness :
    ¬(getField [("Timestamp", "t"), ("Student ID", "S1"), ("Full Name", "Ann"),
        ("Contact Number", "017"), ("Email Address", "a@b.c"), ("Batch", "B1"),
        ("Time", "Aptis"), ("Year", "2026"), ("Status", "ACTIVE"),
        ("Notes", "No notes"), ("Batch_Name", "B1"), ("Batch_Type", "Aptis")]
        "Student ID" = ""
      ∧ getField [("Timestamp", "t"), ("Student ID", "S1"), ("Full Name", "Ann"),
          ("Contact Number", "017"), ("Email Address", "a@b.c"), ("Batch", "B1"),
          ("Time", "Aptis"), ("Year", "2026"), ("Status", "ACTIVE"),
          ("Notes", "No notes"), ("Batch_Name", "B1"), ("Batch_Type", "Aptis")]
          "Full Name" = "") ∧
    0 < get_student_count ⟨"B1",
        [headers,
         ["", "", "", "", "", "", "", "", "", "note"],
         ["t", "S1", "Ann", "017", "a@b.c", "B1", "Aptis", "2026", "ACTIVE",
          "No notes"]]⟩ :=
  ⟨(blank_rows_dropped_but_counted
      ⟨some [], some [⟨"B1",
        [headers,
         ["", "", "", "", "", "", "", "", "", "note"],
         ["t", "S1", "Ann", "017", "a@b.c", "B1", "Aptis", "2026", "ACTIVE",
          "No notes"]]⟩]⟩ "" SearchType.AllFields noFilter
      ⟨"B1", [headers]⟩ _ []).1 (by decide),
   (blank_rows_dropped_but_counted ⟨none, none⟩ "" SearchType.AllFields noFilter
      ⟨"B1",
        [headers,
         ["", "", "", "", "", "", "", "", "", "note"],
         ["t", "S1", "Ann", "017", "a@b.c", "B1", "Aptis", "2026", "ACTIVE",
          "No notes"]]⟩ [] ["", "", "", "", "", "", "", "", "", "note"]).2.2
     (by decide) (by decide)⟩

end StudentManagement
